import Mathlib

/-!
Shallow embedding of the pdf2pps frontend controller
(`src/pdf2pps_frontend/src/App.tsx`).

The component holds six reactive state variables (`file`, `uploading`,
`processing`, `error`, `presentationId`, `slides`) and three event
handlers: `handleFileChange`, `handleUpload` and `handleDownload`.
The two `fetch` calls inside `handleUpload` are modelled by passing the
outcome of each request as an explicit argument: a request either throws
at the network level, or yields a response carrying an `ok` flag, a
status text, and a JSON body whose parse may itself throw.
`handleUpload` is an atomic function from the pre-state and the two
request outcomes to the post-state together with a record of which
requests were actually issued.
-/

/-- A slide returned by the processing step: a title and its bullet
points (`{ title: string, content: string[] }`). -/
structure Slide where
  title : String
  content : List String
deriving Repr, DecidableEq

/-- A selected local file: its name and declared MIME type.  The source
field is called `type`; `type` is a Lean keyword, so we use `mimeType`. -/
structure SelectedFile where
  name : String
  mimeType : String
deriving Repr, DecidableEq

/-- The six `useState` variables of the `App` component. -/
structure AppState where
  file : Option SelectedFile
  uploading : Bool
  processing : Bool
  error : Option String
  presentationId : Option String
  slides : List Slide
deriving Repr, DecidableEq

/-- The initial values passed to `useState`:
`null, false, false, null, null, []`. -/
def initialState : AppState :=
  { file := none, uploading := false, processing := false,
    error := none, presentationId := none, slides := [] }

/-- A thrown JavaScript value: either an `Error` carrying a message, or
any other thrown value (the `err instanceof Error` test fails). -/
inductive Exn where
  | error (message : String)
  | nonError
deriving Repr, DecidableEq

/-- The message displayed for a caught exception:
`err instanceof Error ? err.message : 'An unknown error occurred'`. -/
def exnMessage : Exn → String
  | .error m => m
  | .nonError => "An unknown error occurred"

deriving instance DecidableEq for Except

/-- Outcome of one `fetch` call: the request itself may throw
(`netError`), or it resolves to a response with an `ok` flag and a
status text, whose `.json()` body either parses to an `α` or throws. -/
inductive FetchResult (α : Type) where
  | netError (e : Exn)
  | response (ok : Bool) (statusText : String) (body : Except Exn α)
deriving Repr, DecidableEq

/-- Parsed body of a successful upload response: `{ filename: string }`. -/
structure UploadData where
  filename : String
deriving Repr, DecidableEq

/-- Parsed body of a successful process response:
`{ filename: string, slides: [...] }`. -/
structure ProcessData where
  filename : String
  slides : List Slide
deriving Repr, DecidableEq

/-- `const API_URL = import.meta.env.VITE_API_URL || 'http://localhost:8000'`:
the configured base URL, with JavaScript `||` treating the empty string
and an absent variable as falsy. -/
def API_URL (viteApiUrl : Option String) : String :=
  match viteApiUrl with
  | some s => if s = "" then "http://localhost:8000" else s
  | none => "http://localhost:8000"

/-- The `catch` block of `handleUpload`: set the error message from the
thrown value and reset both in-flight flags. -/
def applyCatch (s : AppState) (e : Exn) : AppState :=
  { s with error := some (exnMessage e), uploading := false, processing := false }

/-- Result of one run of `handleUpload`: the final component state, plus
which requests were issued.  `uploadRequested` records the file sent to
`/upload-pdf/` (none when no request went out); `processRequested`
records the `filename` sent in the `/process-pdf/` JSON body. -/
structure UploadRun where
  finalState : AppState
  uploadRequested : Option SelectedFile
  processRequested : Option String
deriving Repr, DecidableEq

/-- `handleUpload` from `App.tsx`, with the outcome of each of the two
`fetch` calls passed in explicitly.  Mirrors the source line by line:
guard on a missing file; set `uploading`/clear `error`; upload; on
non-`ok` throw `Upload failed: <statusText>`; parse the body; flip
`uploading` off and `processing` on; process; on non-`ok` throw
`Processing failed: <statusText>`; parse; store `presentationId` and
`slides` and flip `processing` off; any throw lands in `applyCatch`. -/
def handleUpload (s : AppState) (uploadRes : FetchResult UploadData)
    (processRes : FetchResult ProcessData) : UploadRun :=
  match s.file with
  | none =>
    { finalState := { s with error := some "Please select a file first" },
      uploadRequested := none, processRequested := none }
  | some f =>
    let s1 := { s with uploading := true, error := none }
    match uploadRes with
    | .netError e =>
      { finalState := applyCatch s1 e, uploadRequested := some f,
        processRequested := none }
    | .response ok statusText body =>
      if !ok then
        { finalState := applyCatch s1 (.error ("Upload failed: " ++ statusText)),
          uploadRequested := some f, processRequested := none }
      else
        match body with
        | .error e =>
          { finalState := applyCatch s1 e, uploadRequested := some f,
            processRequested := none }
        | .ok uploadData =>
          let fileId := uploadData.filename
          let s2 := { s1 with uploading := false, processing := true }
          match processRes with
          | .netError e =>
            { finalState := applyCatch s2 e, uploadRequested := some f,
              processRequested := some fileId }
          | .response ok2 statusText2 body2 =>
            if !ok2 then
              { finalState :=
                  applyCatch s2 (.error ("Processing failed: " ++ statusText2)),
                uploadRequested := some f, processRequested := some fileId }
            else
              match body2 with
              | .error e =>
                { finalState := applyCatch s2 e, uploadRequested := some f,
                  processRequested := some fileId }
              | .ok processData =>
                let s3 : AppState :=
                  { s2 with
                    presentationId := some processData.filename,
                    slides := processData.slides,
                    processing := false }
                { finalState := s3,
                  uploadRequested := some f, processRequested := some fileId }

/-- The sequence of component states passed through during one run of
`handleUpload`, starting from the pre-state: the state after the initial
`setUploading(true)`/`setError(null)` batch, the state after the
`setUploading(false)`/`setProcessing(true)` batch, and the final state.
Used to check the session-state invariant also at the in-flight points. -/
def uploadStates (s : AppState) (uploadRes : FetchResult UploadData)
    (processRes : FetchResult ProcessData) : List AppState :=
  match s.file with
  | none => [s, { s with error := some "Please select a file first" }]
  | some _ =>
    let s1 := { s with uploading := true, error := none }
    match uploadRes with
    | .netError e => [s, s1, applyCatch s1 e]
    | .response ok statusText body =>
      if !ok then [s, s1, applyCatch s1 (.error ("Upload failed: " ++ statusText))]
      else
        match body with
        | .error e => [s, s1, applyCatch s1 e]
        | .ok _ =>
          let s2 := { s1 with uploading := false, processing := true }
          match processRes with
          | .netError e => [s, s1, s2, applyCatch s2 e]
          | .response ok2 statusText2 body2 =>
            if !ok2 then
              [s, s1, s2, applyCatch s2 (.error ("Processing failed: " ++ statusText2))]
            else
              match body2 with
              | .error e => [s, s1, s2, applyCatch s2 e]
              | .ok processData =>
                [s, s1, s2,
                 { s2 with
                   presentationId := some processData.filename,
                   slides := processData.slides,
                   processing := false }]

/-- `handleFileChange`: the list models `e.target.files`; nothing
happens when it is null/empty, otherwise the first file is checked
against `application/pdf`. -/
def handleFileChange (s : AppState) (files : List SelectedFile) : AppState :=
  match files with
  | [] => s
  | f :: _ =>
    if f.mimeType ≠ "application/pdf" then
      { s with error := some "Please select a PDF file" }
    else
      { s with file := some f, error := none }

/-- `handleDownload`: returns the URL opened in a new browsing context
(`window.open(..., '_blank')`), or `none` when no presentation id is
held.  It reads but never writes the component state. -/
def handleDownload (apiUrl : String) (s : AppState) : Option String :=
  match s.presentationId with
  | some id => some (apiUrl ++ "/download/" ++ id)
  | none => none

/-- The five abstract session states of the spec, derived from the
component's flags with the priority the rendering logic uses. -/
inductive Phase where
  | idle
  | uploading
  | processing
  | ready
  | errored
deriving Repr, DecidableEq

/-- Classification of a component state into exactly one `Phase`. -/
def classify (s : AppState) : Phase :=
  if s.uploading then .uploading
  else if s.processing then .processing
  else if s.error.isSome then .errored
  else if s.presentationId.isSome then .ready
  else .idle

/-- Full success of one request: `ok` response whose body parsed. -/
def fetchOkBody {α : Type} : FetchResult α → Option α
  | .response true _ (.ok a) => some a
  | _ => none

/-- States of the component at rest (between event handler runs),
reachable from the initial state by any sequence of file selections,
submissions (with any network outcomes) and downloads.  `handleDownload`
does not write state, so it adds no case. -/
inductive Reachable : AppState → Prop where
  | init : Reachable initialState
  | fileChange (s : AppState) (files : List SelectedFile) :
      Reachable s → Reachable (handleFileChange s files)
  | upload (s : AppState) (u : FetchResult UploadData)
      (p : FetchResult ProcessData) :
      Reachable s → Reachable (handleUpload s u p).finalState

/-! ## Helper lemmas -/

/-- A run of `handleUpload` from a quiescent pre-state always ends with
both in-flight flags off: every exit path either keeps the pre-state's
flags, goes through the `catch` block, or turns `processing` off after
success. -/
theorem upload_final_flags (s : AppState) (u : FetchResult UploadData)
    (p : FetchResult ProcessData)
    (hu : s.uploading = false) (hp : s.processing = false) :
    (handleUpload s u p).finalState.uploading = false ∧
      (handleUpload s u p).finalState.processing = false := by
  cases hf : s.file with
  | none => simp [handleUpload, hf, hu, hp]
  | some f =>
    cases u with
    | netError e => simp [handleUpload, hf, applyCatch]
    | response ok st body =>
      cases ok with
      | false => simp [handleUpload, hf, applyCatch]
      | true =>
        cases body with
        | error e => simp [handleUpload, hf, applyCatch]
        | ok ud =>
          cases p with
          | netError e => simp [handleUpload, hf, applyCatch]
          | response ok2 st2 body2 =>
            cases ok2 with
            | false => simp [handleUpload, hf, applyCatch]
            | true => cases body2 <;> simp [handleUpload, hf, applyCatch]

/-- Every quiescent reachable state has both in-flight flags off. -/
theorem reachable_flags (s : AppState) (hs : Reachable s) :
    s.uploading = false ∧ s.processing = false := by
  induction hs with
  | init => exact ⟨rfl, rfl⟩
  | fileChange s files _ ih =>
    cases files with
    | nil => simpa [handleFileChange] using ih
    | cons f rest =>
      simp only [handleFileChange]
      split <;> simpa using ih
  | upload s u p _ ih => exact upload_final_flags s u p ih.1 ih.2

/-- Along any run of `handleUpload` from a quiescent pre-state, the two
in-flight flags are never simultaneously on. -/
theorem uploadStates_flags (s : AppState) (u : FetchResult UploadData)
    (p : FetchResult ProcessData) (t : AppState)
    (hu : s.uploading = false) (hp : s.processing = false)
    (ht : t ∈ uploadStates s u p) :
    t.uploading = false ∨ t.processing = false := by
  cases hf : s.file with
  | none =>
    simp [uploadStates, hf] at ht
    rcases ht with h | h <;> subst h <;> simp [hu]
  | some f =>
    cases u with
    | netError e =>
      simp [uploadStates, hf] at ht
      rcases ht with h | h | h <;> subst h <;> simp [hu, hp, applyCatch]
    | response ok st body =>
      cases ok with
      | false =>
        simp [uploadStates, hf] at ht
        rcases ht with h | h | h <;> subst h <;> simp [hu, hp, applyCatch]
      | true =>
        cases body with
        | error e =>
          simp [uploadStates, hf] at ht
          rcases ht with h | h | h <;> subst h <;> simp [hu, hp, applyCatch]
        | ok ud =>
          cases p with
          | netError e =>
            simp [uploadStates, hf] at ht
            rcases ht with h | h | h | h <;> subst h <;>
              simp [hu, hp, applyCatch]
          | response ok2 st2 body2 =>
            cases ok2 with
            | false =>
              simp [uploadStates, hf] at ht
              rcases ht with h | h | h | h <;> subst h <;>
                simp [hu, hp, applyCatch]
            | true =>
              cases body2 with
              | error e =>
                simp [uploadStates, hf] at ht
                rcases ht with h | h | h | h <;> subst h <;>
                  simp [hu, hp, applyCatch]
              | ok pd =>
                simp [uploadStates, hf] at ht
                rcases ht with h | h | h | h <;> subst h <;>
                  simp [hu, hp, applyCatch]

/-! ## Claim theorems -/

/-- C4: selecting a file whose declared MIME type is not
`application/pdf` sets the error message to "Please select a PDF file"
and leaves the stored file, slides, presentation identifier and both
in-flight flags unchanged.  `handleFileChange` contains no `fetch`, so
no network call is modelled or attempted. -/
theorem selectFile_nonPdf_rejected (s : AppState) (f : SelectedFile)
    (rest : List SelectedFile) (h : f.mimeType ≠ "application/pdf") :
    (handleFileChange s (f :: rest)).error = some "Please select a PDF file" ∧
    (handleFileChange s (f :: rest)).file = s.file ∧
    (handleFileChange s (f :: rest)).slides = s.slides ∧
    (handleFileChange s (f :: rest)).presentationId = s.presentationId ∧
    (handleFileChange s (f :: rest)).uploading = s.uploading ∧
    (handleFileChange s (f :: rest)).processing = s.processing := by
  simp [handleFileChange, h]

/-- C4 witness: selecting a plain-text file on the initial state. -/
theorem selectFile_nonPdf_rejected_witness :
    (handleFileChange initialState [⟨"notes.txt", "text/plain"⟩]).error
        = some "Please select a PDF file" ∧
    (handleFileChange initialState [⟨"notes.txt", "text/plain"⟩]).file
        = initialState.file ∧
    (handleFileChange initialState [⟨"notes.txt", "text/plain"⟩]).slides
        = initialState.slides ∧
    (handleFileChange initialState [⟨"notes.txt", "text/plain"⟩]).presentationId
        = initialState.presentationId ∧
    (handleFileChange initialState [⟨"notes.txt", "text/plain"⟩]).uploading
        = initialState.uploading ∧
    (handleFileChange initialState [⟨"notes.txt", "text/plain"⟩]).processing
        = initialState.processing :=
  selectFile_nonPdf_rejected initialState ⟨"notes.txt", "text/plain"⟩ [] (by decide)

/-- C9: selecting a file whose declared MIME type is `application/pdf`
stores the file and clears any previously displayed error message. -/
theorem selectFile_pdf_accepted (s : AppState) (f : SelectedFile)
    (rest : List SelectedFile) (h : f.mimeType = "application/pdf") :
    handleFileChange s (f :: rest) = { s with file := some f, error := none } := by
  simp [handleFileChange, h]

/-- C9 witness: selecting a PDF on a state carrying an old error
message stores the file and clears the error. -/
theorem selectFile_pdf_accepted_witness :
    handleFileChange { initialState with error := some "Please select a PDF file" }
        [⟨"report.pdf", "application/pdf"⟩]
      = { initialState with
          file := some ⟨"report.pdf", "application/pdf"⟩, error := none } :=
  selectFile_pdf_accepted
    { initialState with error := some "Please select a PDF file" }
    ⟨"report.pdf", "application/pdf"⟩ [] (by decide)

/-- C5: submitting with no selected file sets the error message to
"Please select a file first", issues neither the upload nor the process
request, and changes nothing else in the session state. -/
theorem submit_noFile (s : AppState) (u : FetchResult UploadData)
    (p : FetchResult ProcessData) (h : s.file = none) :
    handleUpload s u p =
      { finalState := { s with error := some "Please select a file first" },
        uploadRequested := none, processRequested := none } := by
  simp [handleUpload, h]

/-- C5 witness: submitting on the initial state. -/
theorem submit_noFile_witness :
    handleUpload initialState (.netError .nonError) (.netError .nonError) =
      { finalState := { initialState with error := some "Please select a file first" },
        uploadRequested := none, processRequested := none } :=
  submit_noFile initialState (.netError .nonError) (.netError .nonError) rfl

/-- C6: `handleDownload` opens `{API_BASE}/download/{id}` in a new
browsing context exactly when a presentation identifier `id` is held,
and performs no navigation (returns `none`) otherwise.  It only reads
the session state, so it changes no state by construction. -/
theorem download_targets (apiUrl : String) (s : AppState) :
    handleDownload apiUrl s
      = s.presentationId.map (fun id => apiUrl ++ "/download/" ++ id) := by
  cases h : s.presentationId <;> simp [handleDownload, h]

/-- C2: when the upload request returns a non-success HTTP status, no
process request is issued and the run ends in the errored state with
message "Upload failed: <status text>" and both in-flight flags off. -/
theorem upload_httpFailure_no_process (s : AppState) (f : SelectedFile)
    (st : String) (body : Except Exn UploadData) (p : FetchResult ProcessData)
    (h : s.file = some f) :
    (handleUpload s (.response false st body) p).processRequested = none ∧
    (handleUpload s (.response false st body) p).finalState.error
        = some ("Upload failed: " ++ st) ∧
    (handleUpload s (.response false st body) p).finalState.uploading = false ∧
    (handleUpload s (.response false st body) p).finalState.processing = false ∧
    classify (handleUpload s (.response false st body) p).finalState
        = Phase.errored := by
  simp [handleUpload, h, applyCatch, classify, exnMessage]

/-- C2 witness: a 500 upload response on a state with a selected PDF. -/
theorem upload_httpFailure_no_process_witness :
    (handleUpload
        { initialState with file := some ⟨"report.pdf", "application/pdf"⟩ }
        (.response false "Internal Server Error" (.ok ⟨"abc123"⟩))
        (.netError .nonError)).processRequested = none ∧
    (handleUpload
        { initialState with file := some ⟨"report.pdf", "application/pdf"⟩ }
        (.response false "Internal Server Error" (.ok ⟨"abc123"⟩))
        (.netError .nonError)).finalState.error
        = some ("Upload failed: " ++ "Internal Server Error") ∧
    (handleUpload
        { initialState with file := some ⟨"report.pdf", "application/pdf"⟩ }
        (.response false "Internal Server Error" (.ok ⟨"abc123"⟩))
        (.netError .nonError)).finalState.uploading = false ∧
    (handleUpload
        { initialState with file := some ⟨"report.pdf", "application/pdf"⟩ }
        (.response false "Internal Server Error" (.ok ⟨"abc123"⟩))
        (.netError .nonError)).finalState.processing = false ∧
    classify (handleUpload
        { initialState with file := some ⟨"report.pdf", "application/pdf"⟩ }
        (.response false "Internal Server Error" (.ok ⟨"abc123"⟩))
        (.netError .nonError)).finalState = Phase.errored :=
  upload_httpFailure_no_process
    { initialState with file := some ⟨"report.pdf", "application/pdf"⟩ }
    ⟨"report.pdf", "application/pdf"⟩ "Internal Server Error"
    (.ok ⟨"abc123"⟩) (.netError .nonError) rfl

/-- C1: when the upload succeeds with body `{filename := f}` and the
process request succeeds with body `{filename := p, slides := s}`, the
run issues both requests (the process body carrying the uploaded
identifier), stores presentation identifier `p` and slide sequence `s`,
clears any prior error, and ends in the ready state; `handleDownload`
then targets `{API_BASE}/download/{p}`. -/
theorem submit_success (s : AppState) (f : SelectedFile) (stU stP : String)
    (ud : UploadData) (pd : ProcessData) (apiUrl : String)
    (h : s.file = some f) :
    (handleUpload s (.response true stU (.ok ud))
        (.response true stP (.ok pd))).finalState.presentationId
        = some pd.filename ∧
    (handleUpload s (.response true stU (.ok ud))
        (.response true stP (.ok pd))).finalState.slides = pd.slides ∧
    (handleUpload s (.response true stU (.ok ud))
        (.response true stP (.ok pd))).finalState.error = none ∧
    (handleUpload s (.response true stU (.ok ud))
        (.response true stP (.ok pd))).finalState.uploading = false ∧
    (handleUpload s (.response true stU (.ok ud))
        (.response true stP (.ok pd))).finalState.processing = false ∧
    classify (handleUpload s (.response true stU (.ok ud))
        (.response true stP (.ok pd))).finalState = Phase.ready ∧
    (handleUpload s (.response true stU (.ok ud))
        (.response true stP (.ok pd))).uploadRequested = some f ∧
    (handleUpload s (.response true stU (.ok ud))
        (.response true stP (.ok pd))).processRequested = some ud.filename ∧
    handleDownload apiUrl
        (handleUpload s (.response true stU (.ok ud))
          (.response true stP (.ok pd))).finalState
        = some (apiUrl ++ "/download/" ++ pd.filename) := by
  simp [handleUpload, h, classify, handleDownload]

/-- C1 witness: the spec scenario — `report.pdf` selected (with a stale
error present), upload returns `{filename:"abc123"}`, process returns
`{filename:"abc123.pptx", slides:[{title:"Intro", content:["point A",
"point B"]}]}`; the final state is ready with that one slide, the error
is cleared, and the download targets `/download/abc123.pptx`. -/
theorem submit_success_witness :
    (handleUpload
        { initialState with
          file := some ⟨"report.pdf", "application/pdf"⟩,
          error := some "old error" }
        (.response true "OK" (.ok ⟨"abc123"⟩))
        (.response true "OK"
          (.ok ⟨"abc123.pptx", [⟨"Intro", ["point A", "point B"]⟩]⟩))
      ).finalState.presentationId = some "abc123.pptx" ∧
    (handleUpload
        { initialState with
          file := some ⟨"report.pdf", "application/pdf"⟩,
          error := some "old error" }
        (.response true "OK" (.ok ⟨"abc123"⟩))
        (.response true "OK"
          (.ok ⟨"abc123.pptx", [⟨"Intro", ["point A", "point B"]⟩]⟩))
      ).finalState.slides = [⟨"Intro", ["point A", "point B"]⟩] ∧
    (handleUpload
        { initialState with
          file := some ⟨"report.pdf", "application/pdf"⟩,
          error := some "old error" }
        (.response true "OK" (.ok ⟨"abc123"⟩))
        (.response true "OK"
          (.ok ⟨"abc123.pptx", [⟨"Intro", ["point A", "point B"]⟩]⟩))
      ).finalState.error = none ∧
    (handleUpload
        { initialState with
          file := some ⟨"report.pdf", "application/pdf"⟩,
          error := some "old error" }
        (.response true "OK" (.ok ⟨"abc123"⟩))
        (.response true "OK"
          (.ok ⟨"abc123.pptx", [⟨"Intro", ["point A", "point B"]⟩]⟩))
      ).finalState.uploading = false ∧
    (handleUpload
        { initialState with
          file := some ⟨"report.pdf", "application/pdf"⟩,
          error := some "old error" }
        (.response true "OK" (.ok ⟨"abc123"⟩))
        (.response true "OK"
          (.ok ⟨"abc123.pptx", [⟨"Intro", ["point A", "point B"]⟩]⟩))
      ).finalState.processing = false ∧
    classify (handleUpload
        { initialState with
          file := some ⟨"report.pdf", "application/pdf"⟩,
          error := some "old error" }
        (.response true "OK" (.ok ⟨"abc123"⟩))
        (.response true "OK"
          (.ok ⟨"abc123.pptx", [⟨"Intro", ["point A", "point B"]⟩]⟩))
      ).finalState = Phase.ready ∧
    (handleUpload
        { initialState with
          file := some ⟨"report.pdf", "application/pdf"⟩,
          error := some "old error" }
        (.response true "OK" (.ok ⟨"abc123"⟩))
        (.response true "OK"
          (.ok ⟨"abc123.pptx", [⟨"Intro", ["point A", "point B"]⟩]⟩))
      ).uploadRequested = some ⟨"report.pdf", "application/pdf"⟩ ∧
    (handleUpload
        { initialState with
          file := some ⟨"report.pdf", "application/pdf"⟩,
          error := some "old error" }
        (.response true "OK" (.ok ⟨"abc123"⟩))
        (.response true "OK"
          (.ok ⟨"abc123.pptx", [⟨"Intro", ["point A", "point B"]⟩]⟩))
      ).processRequested = some "abc123" ∧
    handleDownload "http://localhost:8000"
        (handleUpload
          { initialState with
            file := some ⟨"report.pdf", "application/pdf"⟩,
            error := some "old error" }
          (.response true "OK" (.ok ⟨"abc123"⟩))
          (.response true "OK"
            (.ok ⟨"abc123.pptx", [⟨"Intro", ["point A", "point B"]⟩]⟩))
        ).finalState
        = some ("http://localhost:8000" ++ "/download/" ++ "abc123.pptx") :=
  submit_success
    { initialState with
      file := some ⟨"report.pdf", "application/pdf"⟩, error := some "old error" }
    ⟨"report.pdf", "application/pdf"⟩ "OK" "OK" ⟨"abc123"⟩
    ⟨"abc123.pptx", [⟨"Intro", ["point A", "point B"]⟩]⟩
    "http://localhost:8000" rfl

/-- C3 counterexample: when a presentation identifier from a prior
successful conversion is already held, a run whose upload succeeds and
whose process request returns a non-success status does NOT leave the
presentation identifier unset — the catch block never clears it. -/
theorem process_failure_presentationId_not_unset :
    ¬ ((handleUpload
        { file := some ⟨"report.pdf", "application/pdf"⟩, uploading := false,
          processing := false, error := none,
          presentationId := some "old.pptx", slides := [] }
        (.response true "OK" (.ok ⟨"abc123"⟩))
        (.response false "Internal Server Error" (.error .nonError))
      ).finalState.presentationId = none) ∧
    (handleUpload
        { file := some ⟨"report.pdf", "application/pdf"⟩, uploading := false,
          processing := false, error := none,
          presentationId := some "old.pptx", slides := [] }
        (.response true "OK" (.ok ⟨"abc123"⟩))
        (.response false "Internal Server Error" (.error .nonError))
      ).finalState.presentationId = some "old.pptx" := by
  constructor
  · simp [handleUpload, applyCatch]
  · simp [handleUpload, applyCatch]

/-- C3 amended: when the upload succeeds but the process request returns
a non-success HTTP status, the presentation identifier is left unchanged
(so it remains unset whenever it was unset before the run) and the error
message is "Processing failed: <status text>", with both flags off. -/
theorem process_failure_keeps_presentationId (s : AppState) (f : SelectedFile)
    (stU stP : String) (ud : UploadData) (body2 : Except Exn ProcessData)
    (h : s.file = some f) :
    (handleUpload s (.response true stU (.ok ud))
        (.response false stP body2)).finalState.presentationId
        = s.presentationId ∧
    (handleUpload s (.response true stU (.ok ud))
        (.response false stP body2)).finalState.error
        = some ("Processing failed: " ++ stP) ∧
    (handleUpload s (.response true stU (.ok ud))
        (.response false stP body2)).finalState.uploading = false ∧
    (handleUpload s (.response true stU (.ok ud))
        (.response false stP body2)).finalState.processing = false := by
  simp [handleUpload, h, applyCatch, exnMessage]

/-- C3 amended witness: on a fresh session (no prior identifier) the
identifier is still unset after the failed process call, and the
processing error is surfaced. -/
theorem process_failure_keeps_presentationId_witness :
    (handleUpload
        { initialState with file := some ⟨"report.pdf", "application/pdf"⟩ }
        (.response true "OK" (.ok ⟨"abc123"⟩))
        (.response false "Internal Server Error" (.error .nonError))
      ).finalState.presentationId
        = { initialState with
            file := some ⟨"report.pdf", "application/pdf"⟩ }.presentationId ∧
    (handleUpload
        { initialState with file := some ⟨"report.pdf", "application/pdf"⟩ }
        (.response true "OK" (.ok ⟨"abc123"⟩))
        (.response false "Internal Server Error" (.error .nonError))
      ).finalState.error
        = some ("Processing failed: " ++ "Internal Server Error") ∧
    (handleUpload
        { initialState with file := some ⟨"report.pdf", "application/pdf"⟩ }
        (.response true "OK" (.ok ⟨"abc123"⟩))
        (.response false "Internal Server Error" (.error .nonError))
      ).finalState.uploading = false ∧
    (handleUpload
        { initialState with file := some ⟨"report.pdf", "application/pdf"⟩ }
        (.response true "OK" (.ok ⟨"abc123"⟩))
        (.response false "Internal Server Error" (.error .nonError))
      ).finalState.processing = false :=
  process_failure_keeps_presentationId
    { initialState with file := some ⟨"report.pdf", "application/pdf"⟩ }
    ⟨"report.pdf", "application/pdf"⟩ "OK" "Internal Server Error"
    ⟨"abc123"⟩ (.error .nonError) rfl

/-- C7: every exception thrown during either request — a network-level
throw, a malformed (throwing) JSON body, or the non-success statuses
converted to thrown `Error`s — is caught; the error message becomes the
exception's message when it is an `Error` and "An unknown error
occurred" otherwise (`exnMessage`), and both flags are reset to false.
The six conjuncts cover the six throw sites of `handleUpload`. -/
theorem submit_exceptions_caught (s : AppState) (f : SelectedFile) (e : Exn)
    (st stB st2 stB2 : String) (p : FetchResult ProcessData) (ud : UploadData)
    (bu : Except Exn UploadData) (bp : Except Exn ProcessData)
    (h : s.file = some f) :
    ((handleUpload s (.netError e) p).finalState.error = some (exnMessage e) ∧
     (handleUpload s (.netError e) p).finalState.uploading = false ∧
     (handleUpload s (.netError e) p).finalState.processing = false) ∧
    ((handleUpload s (.response true st (.error e)) p).finalState.error
        = some (exnMessage e) ∧
     (handleUpload s (.response true st (.error e)) p).finalState.uploading
        = false ∧
     (handleUpload s (.response true st (.error e)) p).finalState.processing
        = false) ∧
    ((handleUpload s (.response false stB bu) p).finalState.error
        = some (exnMessage (.error ("Upload failed: " ++ stB))) ∧
     (handleUpload s (.response false stB bu) p).finalState.uploading = false ∧
     (handleUpload s (.response false stB bu) p).finalState.processing
        = false) ∧
    ((handleUpload s (.response true st (.ok ud))
        (.netError e)).finalState.error = some (exnMessage e) ∧
     (handleUpload s (.response true st (.ok ud))
        (.netError e)).finalState.uploading = false ∧
     (handleUpload s (.response true st (.ok ud))
        (.netError e)).finalState.processing = false) ∧
    ((handleUpload s (.response true st (.ok ud))
        (.response false stB2 bp)).finalState.error
        = some (exnMessage (.error ("Processing failed: " ++ stB2))) ∧
     (handleUpload s (.response true st (.ok ud))
        (.response false stB2 bp)).finalState.uploading = false ∧
     (handleUpload s (.response true st (.ok ud))
        (.response false stB2 bp)).finalState.processing = false) ∧
    ((handleUpload s (.response true st (.ok ud))
        (.response true st2 (.error e))).finalState.error
        = some (exnMessage e) ∧
     (handleUpload s (.response true st (.ok ud))
        (.response true st2 (.error e))).finalState.uploading = false ∧
     (handleUpload s (.response true st (.ok ud))
        (.response true st2 (.error e))).finalState.processing = false) := by
  simp [handleUpload, h, applyCatch]

/-- C7 witness: the six throw sites instantiated with a non-`Error`
thrown value (surfacing "An unknown error occurred") and concrete status
texts, from a state with a selected PDF. -/
theorem submit_exceptions_caught_witness :
    ((handleUpload
        { initialState with file := some ⟨"report.pdf", "application/pdf"⟩ }
        (.netError .nonError) (.netError .nonError)).finalState.error
        = some (exnMessage .nonError) ∧
     (handleUpload
        { initialState with file := some ⟨"report.pdf", "application/pdf"⟩ }
        (.netError .nonError) (.netError .nonError)).finalState.uploading
        = false ∧
     (handleUpload
        { initialState with file := some ⟨"report.pdf", "application/pdf"⟩ }
        (.netError .nonError) (.netError .nonError)).finalState.processing
        = false) ∧
    ((handleUpload
        { initialState with file := some ⟨"report.pdf", "application/pdf"⟩ }
        (.response true "OK" (.error .nonError))
        (.netError .nonError)).finalState.error = some (exnMessage .nonError) ∧
     (handleUpload
        { initialState with file := some ⟨"report.pdf", "application/pdf"⟩ }
        (.response true "OK" (.error .nonError))
        (.netError .nonError)).finalState.uploading = false ∧
     (handleUpload
        { initialState with file := some ⟨"report.pdf", "application/pdf"⟩ }
        (.response true "OK" (.error .nonError))
        (.netError .nonError)).finalState.processing = false) ∧
    ((handleUpload
        { initialState with file := some ⟨"report.pdf", "application/pdf"⟩ }
        (.response false "Bad Request" (.ok ⟨"abc123"⟩))
        (.netError .nonError)).finalState.error
        = some (exnMessage (.error ("Upload failed: " ++ "Bad Request"))) ∧
     (handleUpload
        { initialState with file := some ⟨"report.pdf", "application/pdf"⟩ }
        (.response false "Bad Request" (.ok ⟨"abc123"⟩))
        (.netError .nonError)).finalState.uploading = false ∧
     (handleUpload
        { initialState with file := some ⟨"report.pdf", "application/pdf"⟩ }
        (.response false "Bad Request" (.ok ⟨"abc123"⟩))
        (.netError .nonError)).finalState.processing = false) ∧
    ((handleUpload
        { initialState with file := some ⟨"report.pdf", "application/pdf"⟩ }
        (.response true "OK" (.ok ⟨"abc123"⟩))
        (.netError .nonError)).finalState.error = some (exnMessage .nonError) ∧
     (handleUpload
        { initialState with file := some ⟨"report.pdf", "application/pdf"⟩ }
        (.response true "OK" (.ok ⟨"abc123"⟩))
        (.netError .nonError)).finalState.uploading = false ∧
     (handleUpload
        { initialState with file := some ⟨"report.pdf", "application/pdf"⟩ }
        (.response true "OK" (.ok ⟨"abc123"⟩))
        (.netError .nonError)).finalState.processing = false) ∧
    ((handleUpload
        { initialState with file := some ⟨"report.pdf", "application/pdf"⟩ }
        (.response true "OK" (.ok ⟨"abc123"⟩))
        (.response false "Service Unavailable" (.error .nonError))
      ).finalState.error
        = some (exnMessage (.error ("Processing failed: "
            ++ "Service Unavailable"))) ∧
     (handleUpload
        { initialState with file := some ⟨"report.pdf", "application/pdf"⟩ }
        (.response true "OK" (.ok ⟨"abc123"⟩))
        (.response false "Service Unavailable" (.error .nonError))
      ).finalState.uploading = false ∧
     (handleUpload
        { initialState with file := some ⟨"report.pdf", "application/pdf"⟩ }
        (.response true "OK" (.ok ⟨"abc123"⟩))
        (.response false "Service Unavailable" (.error .nonError))
      ).finalState.processing = false) ∧
    ((handleUpload
        { initialState with file := some ⟨"report.pdf", "application/pdf"⟩ }
        (.response true "OK" (.ok ⟨"abc123"⟩))
        (.response true "OK" (.error .nonError))).finalState.error
        = some (exnMessage .nonError) ∧
     (handleUpload
        { initialState with file := some ⟨"report.pdf", "application/pdf"⟩ }
        (.response true "OK" (.ok ⟨"abc123"⟩))
        (.response true "OK" (.error .nonError))).finalState.uploading
        = false ∧
     (handleUpload
        { initialState with file := some ⟨"report.pdf", "application/pdf"⟩ }
        (.response true "OK" (.ok ⟨"abc123"⟩))
        (.response true "OK" (.error .nonError))).finalState.processing
        = false) :=
  submit_exceptions_caught
    { initialState with file := some ⟨"report.pdf", "application/pdf"⟩ }
    ⟨"report.pdf", "application/pdf"⟩ .nonError "OK" "Bad Request" "OK"
    "Service Unavailable" (.netError .nonError) ⟨"abc123"⟩ (.ok ⟨"abc123"⟩)
    (.error .nonError) rfl

/-- `handleDownload` only reads the presentation identifier. -/
theorem handleDownload_congr (apiUrl : String) (t s : AppState)
    (h : t.presentationId = s.presentationId) :
    handleDownload apiUrl t = handleDownload apiUrl s := by
  unfold handleDownload
  rw [h]

/-- C10: any run of `handleUpload` that is not fully successful (no file
selected, or either request failing to deliver an `ok` response with a
parsed body) leaves the stored slides and presentation identifier
exactly as they were, so `handleDownload` still targets the old
presentation. -/
theorem failed_submit_frame (s : AppState) (u : FetchResult UploadData)
    (p : FetchResult ProcessData) (apiUrl : String)
    (h : ¬ (s.file ≠ none ∧ (fetchOkBody u).isSome = true ∧
            (fetchOkBody p).isSome = true)) :
    (handleUpload s u p).finalState.slides = s.slides ∧
    (handleUpload s u p).finalState.presentationId = s.presentationId ∧
    handleDownload apiUrl (handleUpload s u p).finalState
      = handleDownload apiUrl s := by
  cases hf : s.file with
  | none =>
    refine ⟨?_, ?_, handleDownload_congr apiUrl _ _ ?_⟩ <;>
      simp [handleUpload, hf]
  | some f =>
    cases u with
    | netError e =>
      refine ⟨?_, ?_, handleDownload_congr apiUrl _ _ ?_⟩ <;>
        simp [handleUpload, hf, applyCatch]
    | response ok st body =>
      cases ok with
      | false =>
        refine ⟨?_, ?_, handleDownload_congr apiUrl _ _ ?_⟩ <;>
          simp [handleUpload, hf, applyCatch]
      | true =>
        cases body with
        | error e =>
          refine ⟨?_, ?_, handleDownload_congr apiUrl _ _ ?_⟩ <;>
            simp [handleUpload, hf, applyCatch]
        | ok ud =>
          cases p with
          | netError e =>
            refine ⟨?_, ?_, handleDownload_congr apiUrl _ _ ?_⟩ <;>
              simp [handleUpload, hf, applyCatch]
          | response ok2 st2 body2 =>
            cases ok2 with
            | false =>
              refine ⟨?_, ?_, handleDownload_congr apiUrl _ _ ?_⟩ <;>
                simp [handleUpload, hf, applyCatch]
            | true =>
              cases body2 with
              | error e =>
                refine ⟨?_, ?_, handleDownload_congr apiUrl _ _ ?_⟩ <;>
                  simp [handleUpload, hf, applyCatch]
              | ok pd =>
                exact absurd ⟨by simp [hf], by simp [fetchOkBody],
                  by simp [fetchOkBody]⟩ h

/-- C10 witness: after a prior successful conversion (one slide and an
old presentation id stored), a network-failing submit leaves slides and
identifier intact and the download still targets the old presentation. -/
theorem failed_submit_frame_witness :
    (handleUpload
        { file := some ⟨"report.pdf", "application/pdf"⟩, uploading := false,
          processing := false, error := none,
          presentationId := some "old.pptx",
          slides := [⟨"Intro", ["point A", "point B"]⟩] }
        (.netError (.error "Failed to fetch")) (.netError .nonError)
      ).finalState.slides = [⟨"Intro", ["point A", "point B"]⟩] ∧
    (handleUpload
        { file := some ⟨"report.pdf", "application/pdf"⟩, uploading := false,
          processing := false, error := none,
          presentationId := some "old.pptx",
          slides := [⟨"Intro", ["point A", "point B"]⟩] }
        (.netError (.error "Failed to fetch")) (.netError .nonError)
      ).finalState.presentationId = some "old.pptx" ∧
    handleDownload "http://localhost:8000"
        (handleUpload
          { file := some ⟨"report.pdf", "application/pdf"⟩, uploading := false,
            processing := false, error := none,
            presentationId := some "old.pptx",
            slides := [⟨"Intro", ["point A", "point B"]⟩] }
          (.netError (.error "Failed to fetch")) (.netError .nonError)
        ).finalState
      = handleDownload "http://localhost:8000"
          { file := some ⟨"report.pdf", "application/pdf"⟩, uploading := false,
            processing := false, error := none,
            presentationId := some "old.pptx",
            slides := [⟨"Intro", ["point A", "point B"]⟩] } :=
  failed_submit_frame
    { file := some ⟨"report.pdf", "application/pdf"⟩, uploading := false,
      processing := false, error := none, presentationId := some "old.pptx",
      slides := [⟨"Intro", ["point A", "point B"]⟩] }
    (.netError (.error "Failed to fetch")) (.netError .nonError)
    "http://localhost:8000" (by decide)

/-- C8: in every state reachable by any sequence of file selections,
submissions (with any network outcomes) and downloads — including the
in-flight states passed through during a submission — the `uploading`
and `processing` flags are never both true, and the state is classified
into exactly one of the five phases idle/uploading/processing/ready/
errored. -/
theorem session_state_exclusive (s : AppState) (u : FetchResult UploadData)
    (p : FetchResult ProcessData) (t : AppState)
    (hs : Reachable s) (ht : t ∈ uploadStates s u p) :
    ¬ (t.uploading = true ∧ t.processing = true) ∧
      ∃! ph : Phase, classify t = ph := by
  obtain ⟨hu, hp⟩ := reachable_flags s hs
  refine ⟨?_, ⟨classify t, rfl, fun y hy => hy.symm⟩⟩
  rcases uploadStates_flags s u p t hu hp ht with h | h <;> simp [h]

/-- C8 witness: the initial state, as visited by a submission attempted
with no file selected. -/
theorem session_state_exclusive_witness :
    ¬ (initialState.uploading = true ∧ initialState.processing = true) ∧
      ∃! ph : Phase, classify initialState = ph :=
  session_state_exclusive initialState (.netError .nonError)
    (.netError .nonError) initialState Reachable.init (by decide)
